import Mathlib

/-!
Verification of the adaptive PDF document-structure extraction engine
(`app/phase1_pdf_processing/utils/pdf_extraction_strategies.py` and
`app/phase1_pdf_processing/processor.py`).

The Python code is shallowly embedded: strings are Lean `String`s, the
regular expressions used by the code are represented by a small regex
AST (`RE`) together with an executable backtracking matcher whose
alternation / greedy / lazy ordering follows Python's `re` engine, and
the stateful entry-collecting loops become explicit folds over a state
record.  Float comparisons of the form `x > n * 0.5`, `x < n * 0.2`,
`x > n * 1.5`, `fill < 0.3` are translated to exact integer / rational
comparisons, which agree with the IEEE double computations on all
realistic magnitudes.
-/

set_option maxRecDepth 20000
set_option maxHeartbeats 4000000

/-! ## Python-style string helpers -/

/-- The whitespace characters recognised by Python's `str.strip`, `str.split`
and the regex class `\s` (ASCII range). -/
def pyIsSpace (c : Char) : Bool :=
  c == ' ' || c == '\t' || c == '\n' || c == '\r' || c == '\x0b' || c == '\x0c'

/-- Word characters for the regex metacharacter `\b` (ASCII `\w`). -/
def isWordChar (c : Char) : Bool := c.isAlphanum || c == '_'

/-- Python `str.strip()`: drop leading and trailing whitespace. -/
def pyStrip (s : String) : String :=
  String.mk (((s.data.dropWhile pyIsSpace).reverse.dropWhile pyIsSpace).reverse)

/-- Python `str.lower()` (ASCII case folding). -/
def pyLower (s : String) : String := String.mk (s.data.map Char.toLower)

/-- Python `sep.join(l)`. -/
def joinStr (sep : String) : List String → String
  | [] => ""
  | [s] => s
  | s :: rest => s ++ sep ++ joinStr sep rest

/-- Helper for `splitLines`. -/
def splitCharsAux (sep : Char) : List Char → List Char → List (List Char)
  | [], acc => [acc.reverse]
  | c :: rest, acc =>
    if c == sep then acc.reverse :: splitCharsAux sep rest []
    else splitCharsAux sep rest (c :: acc)

/-- Python `s.split(sep-char)` keeping empty pieces; used for `text.split(chr(10))`. -/
def splitLines (s : String) : List String :=
  (splitCharsAux '\n' s.data []).map String.mk

/-- Python `s.split()` (split on whitespace runs, drop empty pieces). -/
def pySplitWs (s : String) : List String :=
  ((splitCharsAux ' ' (s.data.map (fun c => if pyIsSpace c then ' ' else c)) []).map
    String.mk).filter (fun t => t ≠ "")

/-- Does `b` start with `a` (Python `startswith`)? -/
def leadMatch : List Char → List Char → Bool
  | [], _ => true
  | _ :: _, [] => false
  | a :: as, b :: bs => a == b && leadMatch as bs

/-- Python `needle in hay` substring test. -/
def containsSub (needle : List Char) : List Char → Bool
  | [] => leadMatch needle []
  | c :: rest => leadMatch needle (c :: rest) || containsSub needle rest

/-- Python `s.isdigit()` for ASCII text. -/
def pyIsDigits (s : String) : Bool := !s.data.isEmpty && s.data.all Char.isDigit

/-- Python `int(s)` on a digit string. -/
def digitsToNat (s : String) : Nat :=
  s.data.foldl (fun n c => 10 * n + (c.toNat - '0'.toNat)) 0

/-- Python `str.isupper()`: some cased character, and all cased characters
uppercase (ASCII). -/
def pyIsUpperStr (s : String) : Bool :=
  s.data.any Char.isAlpha && s.data.all (fun c => !c.isAlpha || c.isUpper)

/-- First character uppercase (`line[0].isupper()`); `false` for empty. -/
def firstCharUpper (s : String) : Bool :=
  match s.data with
  | [] => false
  | c :: _ => c.isUpper

/-! ## A small regex AST and backtracking matcher

Only the constructs appearing in the Python patterns are represented:
literals (case-sensitive or not), character classes with a `{lo,hi}`
repetition count (greedy or lazy), sequencing, ordered alternation,
greedy `(?:...)?`, capture groups, `\b`, `^` and `$`.  The matcher is a
continuation-passing backtracker whose ordering (leftmost alternative
first, greedy = longest first, lazy = shortest first, optional = present
first) is exactly the ordering of Python's `re` backtracking engine. -/

inductive RE where
  | eps : RE
  | lit : Bool → List Char → RE
  | cls : (Char → Bool) → Nat → Option Nat → Bool → RE
  | seq : RE → RE → RE
  | alt : RE → RE → RE
  | opt : RE → RE
  | grp : Nat → RE → RE
  | wb : RE
  | bos : RE
  | eos : RE

/-- Capture slots: up to three groups, stored as half-open index ranges. -/
abbrev Caps := List (Option (Nat × Nat))

def capsInit : Caps := [none, none, none]

def setCap (c : Caps) (n i j : Nat) : Caps := c.set n (some (i, j))

/-- Match a literal at position `i`; pattern characters are stored lowercased
when `ci` is set, matching Python `re.IGNORECASE`. -/
def litAt (ci : Bool) : List Char → List Char → Nat → Option Nat
  | [], _, i => some i
  | c :: cs, s, i =>
    match s.get? i with
    | some d => if (if ci then d.toLower == c else d == c) then litAt ci cs s (i + 1) else none
    | none => none

/-- Consume exactly `lo` characters of class `p` (the mandatory part of a
repetition). -/
def clsTake (p : Char → Bool) (s : List Char) : Nat → Nat → Option Nat
  | i, 0 => some i
  | i, lo + 1 =>
    match s.get? i with
    | some c => if p c then clsTake p s (i + 1) lo else none
    | none => none

/-- Backtracking repetition of a character class beyond the mandatory part.
`n` counts characters consumed so far, `hi` is the total bound. -/
def clsRun (p : Char → Bool) (hi : Option Nat) (lz : Bool) (s : List Char)
    (k : Nat → Option Caps) : Nat → Nat → Nat → Option Caps
  | 0, i, _ => k i
  | fuel + 1, i, n =>
    let canMore : Bool :=
      (match hi with
       | none => true
       | some h => Nat.blt n h) &&
      (match s.get? i with
       | some c => p c
       | none => false)
    if lz then
      match k i with
      | some r => some r
      | none => if canMore then clsRun p hi lz s k fuel (i + 1) (n + 1) else none
    else
      if canMore then
        match clsRun p hi lz s k fuel (i + 1) (n + 1) with
        | some r => some r
        | none => k i
      else k i

/-- Word-boundary test of `\b` at position `i`. -/
def isWB (s : List Char) (i : Nat) : Bool :=
  let before : Bool :=
    match i with
    | 0 => false
    | j + 1 =>
      match s.get? j with
      | some c => isWordChar c
      | none => false
  let after : Bool :=
    match s.get? i with
    | some c => isWordChar c
    | none => false
  before != after

/-- The backtracking matcher.  `k` is the continuation receiving the position
after the current node and the captures recorded so far. -/
def reM : RE → List Char → Nat → Caps → (Nat → Caps → Option Caps) → Option Caps
  | .eps, _, i, caps, k => k i caps
  | .lit ci cs, s, i, caps, k =>
    match litAt ci cs s i with
    | some j => k j caps
    | none => none
  | .cls p lo hi lz, s, i, caps, k =>
    match clsTake p s i lo with
    | some j => clsRun p hi lz s (fun j2 => k j2 caps) (s.length + 1) j lo
    | none => none
  | .seq a b, s, i, caps, k => reM a s i caps (fun j c2 => reM b s j c2 k)
  | .alt a b, s, i, caps, k =>
    match reM a s i caps k with
    | some r => some r
    | none => reM b s i caps k
  | .opt r, s, i, caps, k =>
    match reM r s i caps k with
    | some r2 => some r2
    | none => k i caps
  | .grp n r, s, i, caps, k => reM r s i caps (fun j c2 => k j (setCap c2 n i j))
  | .wb, s, i, caps, k => if isWB s i then k i caps else none
  | .bos, _, i, caps, k => if i == 0 then k i caps else none
  | .eos, s, i, caps, k =>
    if i == s.length || (i + 1 == s.length && s.get? i == some '\n') then k i caps else none

/-- Python `re.match` (anchored at position 0 of `s`, prefix match). -/
def reMatchAt (r : RE) (s : List Char) (i : Nat) : Option Caps :=
  reM r s i capsInit (fun _ c => some c)

def reMatchB (r : RE) (s : String) : Bool := (reMatchAt r s.data 0).isSome

/-- Python `re.search`: does the pattern match starting at any position? -/
def reSearchB (r : RE) (s : String) : Bool :=
  (List.range (s.data.length + 1)).any (fun i => (reMatchAt r s.data i).isSome)

def capSub (s : List Char) (c : Option (Nat × Nat)) : Option String :=
  c.map (fun p => String.mk ((s.drop p.1).take (p.2 - p.1)))

/-- A compiled index-entry pattern: its AST plus the number of capture groups
(the Python code branches on `len(match.groups())`). -/
structure IndexPattern where
  re : RE
  ngroups : Nat

/-- `re.match(pattern, line)` followed by `match.groups()`. -/
def reMatchGroups (p : IndexPattern) (line : String) : Option (List (Option String)) :=
  (reMatchAt p.re line.data 0).map
    (fun caps => (List.range p.ngroups).map (fun g => capSub line.data (caps.getD g none)))

/-! ## The concrete patterns of the Python source

Each definition below embeds one regex literal of
`pdf_extraction_strategies.py` / `processor.py`; character classes are
expanded for `re.IGNORECASE` where the call site passes that flag. -/

def rseq (l : List RE) : RE := l.foldr RE.seq RE.eps

/-- Case-insensitive literal (stored lowercased). -/
def litCI (s : String) : RE := RE.lit true (s.data.map Char.toLower)

/-- Case-sensitive literal. -/
def litCS (s : String) : RE := RE.lit false s.data

/-- `\bword\b`, case-insensitive. -/
def wordRE (w : String) : RE := rseq [RE.wb, litCI w, RE.wb]

def wsCls : RE := RE.cls pyIsSpace 0 none false
def wsPlus : RE := RE.cls pyIsSpace 1 none false
def digitCls : RE := RE.cls Char.isDigit 1 none false

/-- `[IVX]` under `re.IGNORECASE`. -/
def romanCi (c : Char) : Bool :=
  c == 'I' || c == 'V' || c == 'X' || c == 'i' || c == 'v' || c == 'x'

/-- `[IVX]` case-sensitive. -/
def romanCs (c : Char) : Bool := c == 'I' || c == 'V' || c == 'X'

/-- `[\.\)]`. -/
def dotParen (c : Char) : Bool := c == '.' || c == ')'

/-- `[A-Z]` under `re.IGNORECASE` (and `[a-z]` under `re.IGNORECASE`). -/
def asciiLetter (c : Char) : Bool :=
  ('A' ≤ c && c ≤ 'Z') || ('a' ≤ c && c ≤ 'z')

/-- `[a-z]` case-sensitive. -/
def lowerAZ (c : Char) : Bool := 'a' ≤ c && c ≤ 'z'

/-- `[1i]` under `re.IGNORECASE`. -/
def oneI (c : Char) : Bool := c == '1' || c == 'i' || c == 'I'

/-- `\.{2,}`. -/
def dots2 : RE := RE.cls (fun c => c == '.') 2 none false

/-- `.` (no DOTALL) repeated lazily: `(.+?)`. -/
def anyChLazy : RE := RE.cls (fun c => c != '\n') 1 none true

/-- `[\.\)]?`. -/
def dotParenOpt : RE := RE.cls dotParen 0 (some 1) false

/-- Default `index_keywords` of `ExtractionConfig.__post_init__`, in order. -/
def defaultKeywords : List RE :=
  [rseq [RE.wb, litCI "table", wsPlus, litCI "of", wsPlus, litCI "contents", RE.wb],
   wordRE "contents",
   wordRE "index",
   wordRE "toc",
   wordRE "overview",
   rseq [RE.wb, litCI "chapter", RE.opt (litCI "s"), RE.wb]]

/-- First alternation of the first two `index_patterns`:
`[IVX]+[\.\)]?|\d+[\.\)]?|chapter\s+\d+|part\s+\d+` (the last two
alternatives only in pattern 1). -/
def enumAlt1 : RE :=
  RE.alt (rseq [RE.cls romanCi 1 none false, dotParenOpt])
    (RE.alt (rseq [digitCls, dotParenOpt])
      (RE.alt (rseq [litCI "chapter", wsPlus, digitCls])
        (rseq [litCI "part", wsPlus, digitCls])))

def enumAlt2 : RE :=
  RE.alt (rseq [RE.cls romanCi 1 none false, dotParenOpt])
    (rseq [digitCls, dotParenOpt])

/-- `(?:[\s]*\.{2,}[\s]*(\d+))?` with the digits captured as group `g`. -/
def pageSuffix (g : Nat) : RE :=
  RE.opt (rseq [wsCls, dots2, wsCls, RE.grp g digitCls])

/-- Index pattern 1:
`^[\s]*([IVX]+[\.\)]?|\d+[\.\)]?|chapter\s+\d+|part\s+\d+)[\s]+(.+?)(?:[\s]*\.{2,}[\s]*(\d+))?[\s]*$`. -/
def indexPat1 : IndexPattern :=
  ⟨rseq [RE.bos, wsCls, RE.grp 0 enumAlt1, wsPlus, RE.grp 1 anyChLazy,
         pageSuffix 2, wsCls, RE.eos], 3⟩

/-- Index pattern 2: `^[\s]*([IVX]+[\.\)]?|\d+[\.\)]?)[\s]+(.+?)[\s]*$`. -/
def indexPat2 : IndexPattern :=
  ⟨rseq [RE.bos, wsCls, RE.grp 0 enumAlt2, wsPlus, RE.grp 1 anyChLazy,
         wsCls, RE.eos], 2⟩

/-- Index pattern 3: `^[\s]*([A-Z][^\.]{3,50})(?:[\s]*\.{2,}[\s]*(\d+))?[\s]*$`. -/
def indexPat3 : IndexPattern :=
  ⟨rseq [RE.bos, wsCls,
         RE.grp 0 (rseq [RE.cls asciiLetter 1 (some 1) false,
                         RE.cls (fun c => c != '.') 3 (some 50) false]),
         pageSuffix 1, wsCls, RE.eos], 2⟩

def defaultIndexPatterns : List IndexPattern := [indexPat1, indexPat2, indexPat3]

/-- Default `content_indicators` of `ExtractionConfig.__post_init__`. -/
def defaultContentIndicators : List RE :=
  [wordRE "introduction",
   rseq [RE.wb, litCI "chapter", wsPlus, RE.cls oneI 1 (some 1) false],
   wordRE "preface",
   wordRE "foreword",
   wordRE "prologue",
   rseq [RE.wb, litCI "part", wsPlus, RE.cls oneI 1 (some 1) false],
   rseq [RE.wb, litCI "chapter", wsPlus, litCI "one", RE.wb],
   rseq [RE.wb, litCI "chapter", wsPlus, litCI "first", RE.wb]]

/-- The alternation `(this|the|we|it|in|on|at|as|to|for|of|a|an)` in source
order; `ci` selects whether the call site passes `re.IGNORECASE`. -/
def starterAlt (ci : Bool) : RE :=
  [litOf "this", litOf "the", litOf "we", litOf "it", litOf "in", litOf "on",
   litOf "at", litOf "as", litOf "to", litOf "for", litOf "of",
   litOf "a"].foldr RE.alt (litOf "an")
where litOf (w : String) : RE := if ci then litCI w else litCS w

/-- `_is_content_line`'s starter test, with `re.IGNORECASE`:
`^(this|the|we|it|in|on|at|as|to|for|of|a|an)\s+[a-z]`. -/
def contentStartersRE : RE :=
  rseq [RE.bos, starterAlt true, wsPlus, RE.cls asciiLetter 1 (some 1) false]

/-- The unnumbered-entry guard of line 404 (case-sensitive):
`^(this|the|we|it|in|on|at|as|to|for|of|a|an)\s+[a-z]`. -/
def unnumStartRE : RE :=
  rseq [RE.bos, starterAlt false, wsPlus, RE.cls lowerAZ 1 (some 1) false]

/-- The final-filter guard of line 427 (case-sensitive):
`^(this|the|we|it|in|on|at|as|to|for|of|a|an)\s+[a-z]{10,}`. -/
def filterTailRE : RE :=
  rseq [RE.bos, starterAlt false, wsPlus, RE.cls lowerAZ 10 none false]

/-- `[IVX]+[\.\)]|\d+[\.\)]` with `re.IGNORECASE` (pattern strategy, line 239). -/
def enumCiRE : RE :=
  RE.alt (rseq [RE.cls romanCi 1 none false, RE.cls dotParen 1 (some 1) false])
    (rseq [digitCls, RE.cls dotParen 1 (some 1) false])

/-- `[IVX]+[\.\)]|\d+[\.\)]` case-sensitive (continuation test, line 285). -/
def enumCsRE : RE :=
  RE.alt (rseq [RE.cls romanCs 1 none false, RE.cls dotParen 1 (some 1) false])
    (rseq [digitCls, RE.cls dotParen 1 (some 1) false])

/-- `^[IVX]+[\.\)]|\d+[\.\)]` case-sensitive (line 398); note the `^`
anchors only the first alternative. -/
def enumStartRE : RE :=
  RE.alt (rseq [RE.bos, RE.cls romanCs 1 none false, RE.cls dotParen 1 (some 1) false])
    (rseq [digitCls, RE.cls dotParen 1 (some 1) false])

/-- `^PROLOGUE$` with `re.IGNORECASE`. -/
def prologueRE : RE := rseq [RE.bos, litCI "prologue", RE.eos]

/-- Academic indicators of `analyze_book_type`, in order. -/
def academicIndicators : List RE :=
  [wordRE "references", wordRE "bibliography", wordRE "citation",
   wordRE "abstract", wordRE "introduction", wordRE "conclusion",
   rseq [RE.wb, litCI "figure", wsPlus, digitCls],
   rseq [RE.wb, litCI "table", wsPlus, digitCls],
   wordRE "equation"]

/-- Novel indicators of `analyze_book_type`, in order; the fourth is
`"[^"]{20,}"`. -/
def novelIndicators : List RE :=
  [rseq [RE.wb, litCI "chapter", wsPlus, digitCls],
   rseq [RE.wb, litCI "part", wsPlus, digitCls],
   wordRE "epilogue",
   rseq [litCS "\"", RE.cls (fun c => c != '"') 20 none false, litCS "\""],
   rseq [RE.wb, litCI "he", wsPlus, litCI "said", RE.wb],
   rseq [RE.wb, litCI "she", wsPlus, litCI "said", RE.wb]]

/-- Manual indicators of `analyze_book_type`, in order. -/
def manualIndicators : List RE :=
  [rseq [RE.wb, litCI "step", wsPlus, digitCls],
   wordRE "procedure", wordRE "instruction",
   rseq [RE.wb, litCI "how", wsPlus, litCI "to", RE.wb],
   wordRE "tutorial", wordRE "guide"]

/-! ## Data model -/

/-- `BookType` enum. -/
inductive BookType where
  | academic
  | novel
  | textbook
  | manual
  | unknown
deriving DecidableEq

/-- `ExtractionConfig` with the defaults installed by `__post_init__`.
`min_table_cell_fill` is Python float; modelled as an exact rational. -/
structure ExtractionConfig where
  index_keywords : List RE := defaultKeywords
  index_patterns : List IndexPattern := defaultIndexPatterns
  max_index_pages : Nat := 15
  min_index_entries : Nat := 3
  content_indicators : List RE := defaultContentIndicators
  min_content_length : Nat := 200
  skip_initial_pages : Nat := 0
  min_table_rows : Nat := 2
  min_table_cols : Nat := 2
  min_table_cell_fill : ℚ := mkRat 3 10
  max_cell_length : Nat := 500

def defaultConfig : ExtractionConfig := {}

/-- A page dictionary `{"page_number": ..., "text": ...}`. -/
structure PageDict where
  page_number : Nat
  text : String
deriving DecidableEq

/-- An index entry dictionary. `page_reference` is `int(...)` of a `\d+`
capture, hence a natural number. -/
structure IndexEntry where
  entry_number : Option String
  title : String
  page_reference : Option Nat
deriving DecidableEq

/-- The dictionary returned by `AdaptiveIndexExtractor.extract` on success. -/
structure IndexResult where
  page_number : Nat
  pages : List Nat
  has_index_keyword : Bool
  entries : List IndexEntry
  raw_text : String
deriving DecidableEq

/-- The core fields of the dictionary returned by `_structure_table` (the
derived `dataframe` / `csv` serialisations are omitted: both the normal and
the exception branch return these same core fields). -/
structure StructuredTable where
  page_number : Nat
  table_index : Nat
  header : List String
  data : List (List String)
  row_count : Nat
  column_count : Nat
deriving DecidableEq

/-! ## BookStructureAnalyzer -/

def countMatches (patterns : List RE) (text : String) : Nat :=
  patterns.countP (fun r => reSearchB r text)

/-- `" ".join(text_samples).lower()`. -/
def combinedSample (samples : List String) : String := pyLower (joinStr " " samples)

def academicScore (t : String) : Nat := countMatches academicIndicators t
def novelScore (t : String) : Nat := countMatches novelIndicators t
def manualScore (t : String) : Nat := countMatches manualIndicators t

/-- `BookStructureAnalyzer.analyze_book_type`. -/
def analyze_book_type (text_samples : List String) (total_pages : Nat) : BookType :=
  if 3 ≤ academicScore (combinedSample text_samples) then BookType.academic
  else if 2 ≤ novelScore (combinedSample text_samples) ∧ 100 < total_pages then BookType.novel
  else if 2 ≤ manualScore (combinedSample text_samples) then BookType.manual
  else if 2 ≤ academicScore (combinedSample text_samples) then BookType.textbook
  else BookType.unknown

/-- `BookStructureAnalyzer.get_config_for_type`. -/
def get_config_for_type : BookType → ExtractionConfig
  | BookType.academic =>
    { max_index_pages := 20, min_index_entries := 5, min_content_length := 300,
      min_table_cell_fill := mkRat 2 5 }
  | BookType.textbook =>
    { max_index_pages := 25, min_index_entries := 10, min_content_length := 250,
      min_table_cell_fill := mkRat 7 20 }
  | BookType.novel =>
    { max_index_pages := 5, min_index_entries := 1, min_content_length := 100,
      skip_initial_pages := 3 }
  | BookType.manual =>
    { max_index_pages := 15, min_index_entries := 3, min_content_length := 150,
      min_table_cell_fill := mkRat 3 10 }
  | BookType.unknown => {}

/-! ## AdaptiveIndexExtractor: page location strategies -/

/-- `any(re.search(p, s, re.IGNORECASE) for p in config.index_keywords)`. -/
def anyKeywordB (cfg : ExtractionConfig) (s : String) : Bool :=
  cfg.index_keywords.any (fun r => reSearchB r s)

/-- `_looks_like_index_continuation`. -/
def looksLikeContinuation (text : String) : Bool :=
  let lines := ((splitLines text).map pyStrip).filter (fun l => l ≠ "")
  if lines.length < 3 then false
  else
    let numbered := lines.countP (fun l => reSearchB enumCsRE l)
    let shortL := lines.countP (fun l => 5 < l.length ∧ l.length < 100)
    let contentL := lines.countP (fun l =>
      ["this", "the", "we", "it", "in", "on", "at"].any
        (fun w => leadMatch (w ++ " ").data (pyLower l).data))
    (2 ≤ numbered || 3 * lines.length < 5 * shortL) && contentL < 2

/-- Python `pages.index(page)`: index of the first equal element. -/
def idxOfPD (p : PageDict) : List PageDict → Nat
  | [] => 0
  | q :: rest => if q = p then 0 else idxOfPD p rest + 1

/-- The keyword strategy's continuation loop: absorb candidates while they
look like continuations, skipping ones already collected, stopping at the
first non-continuation. -/
def absorbCont : List PageDict → List PageDict → List PageDict
  | [], acc => acc
  | q :: rest, acc =>
    if looksLikeContinuation q.text then
      if q ∈ acc then absorbCont rest acc else absorbCont rest (acc ++ [q])
    else acc

/-- `_find_index_pages_by_keywords` (iterating over `pages`, which is the
already-truncated prefix). -/
def findKwGo (cfg : ExtractionConfig) (pages : List PageDict) : List PageDict → List PageDict
  | [] => []
  | p :: rest =>
    if anyKeywordB cfg (pyLower p.text) then
      absorbCont ((pages.drop (idxOfPD p pages + 1)).take 2) [p]
    else findKwGo cfg pages rest

def findByKeywords (cfg : ExtractionConfig) (pages : List PageDict) : List PageDict :=
  findKwGo cfg pages pages

/-- `_find_index_pages_by_patterns`; its continuation loop looks at a single
following page and has no early exit. -/
def findPatGo (pages : List PageDict) : List PageDict → List PageDict
  | [] => []
  | p :: rest =>
    if 3 ≤ (splitLines p.text).countP (fun l => reSearchB enumCiRE l) then
      match (pages.drop (idxOfPD p pages + 1)).take 1 with
      | [] => [p]
      | q :: _ =>
        if looksLikeContinuation q.text then
          if q ∈ ([p] : List PageDict) then [p] else [p, q]
        else [p]
    else findPatGo pages rest

def findByPatterns (pages : List PageDict) : List PageDict :=
  findPatGo pages pages

/-- `_find_index_pages_by_statistics` over the first 10 pages.  The float
tests `short > len*0.5`, `long < len*0.2`, `avg < 60` become the exact
comparisons `len < 2*short`, `5*long < len`, `total < 60*len`. -/
def findStatGo : List PageDict → List PageDict
  | [] => []
  | p :: rest =>
    let lines := ((splitLines p.text).map pyStrip).filter (fun l => l ≠ "")
    if lines.length < 5 then findStatGo rest
    else
      let total := (lines.map String.length).sum
      let shortL := lines.countP (fun l => 10 < l.length ∧ l.length < 80)
      let longL := lines.countP (fun l => 150 < l.length)
      if lines.length < 2 * shortL ∧ 5 * longL < lines.length ∧ total < 60 * lines.length
      then [p]
      else findStatGo rest

def findByStatistics (pages : List PageDict) : List PageDict :=
  findStatGo (pages.take 10)

/-- The three-tier cascade of `extract` applied to the first
`min(max_pages, len(pages))` pages; `max_pages or config.max_index_pages`
treats an explicit `0` as absent (Python falsiness). -/
def locatedPages (cfg : ExtractionConfig) (pages : List PageDict)
    (max_pages : Option Nat) : List PageDict :=
  let mp := match max_pages with
    | none => cfg.max_index_pages
    | some n => if n = 0 then cfg.max_index_pages else n
  let pref := pages.take (min mp pages.length)
  let s1 := findByKeywords cfg pref
  let s2 := if s1.isEmpty then findByPatterns pref else s1
  if s2.isEmpty then findByStatistics pref else s2

/-! ## AdaptiveIndexExtractor: entry parsing

`_extract_entries_adaptive` is a stateful loop over the lines of the
concatenated page text.  Python mutates `current_entry` dictionaries that
may already have been appended to `entries`; the state therefore carries
`curIdxs`, the list of positions in `entries` aliasing the open entry, and
mutation writes through to those positions. -/

structure EState where
  entries : List IndexEntry
  seen : List String
  current : Option IndexEntry
  curIdxs : List Nat
  collecting : Bool
  stopped : Bool

def initState : EState :=
  { entries := [], seen := [], current := none, curIdxs := [],
    collecting := false, stopped := false }

/-- `entry["title"].lower().strip()`, the deduplication key. -/
def titleKey (e : IndexEntry) : String := pyStrip (pyLower e.title)

/-- Write-through of a mutation of the open entry to its aliases inside
`entries`. -/
def updateAll (es : List IndexEntry) (idxs : List Nat) (e : IndexEntry) : List IndexEntry :=
  idxs.foldl (fun acc i => acc.set i e) es

/-- Commit the open entry to `entries` (deduplicated; the sites at blank
lines, pattern hits and the end of input additionally require
`len(title_key) > 2`, selected by `checkLen`).  Python does not clear
`current_entry` here; it stays aliased to the appended dictionary. -/
def saveCurrent (checkLen : Bool) (st : EState) : EState :=
  match st.current with
  | none => st
  | some cur =>
    let key := titleKey cur
    if key ∉ st.seen ∧ (2 < key.length ∨ ¬checkLen) then
      { st with entries := st.entries ++ [cur], seen := key :: st.seen,
                curIdxs := st.curIdxs ++ [st.entries.length] }
    else st

/-- `_is_content_line`. -/
def isContentLine (cfg : ExtractionConfig) (line : String) (entries : List IndexEntry) : Bool :=
  if 250 < line.length then true
  else
    let csHit := reSearchB contentStartersRE line
    if csHit ∧ entries.length < cfg.min_index_entries then false
    else if csHit ∧ 150 < line.length then true
    else if reMatchB prologueRE line ∧ cfg.min_index_entries ≤ entries.length then true
    else false

/-- `any(skip in line.lower() for skip in [...])`. -/
def skipWordHit (line : String) : Bool :=
  ["copyright", "penguin", "title page", "dedication", "epigraph"].any
    (fun w => containsSub w.data (pyLower line).data)

/-- Title clean-up: strip, then collapse an exact duplicated half
(`"Title Page Title Page"` becomes `"Title Page"`). -/
def halfDedup (t : String) : String :=
  let ws := pySplitWs t
  if 1 < ws.length ∧ ws.take (ws.length / 2) = ws.drop (ws.length / 2) then
    joinStr " " (ws.take (ws.length / 2))
  else t

/-- The `for pattern in self.config.index_patterns` loop of lines 338-376.
Returns the updated state and the `matched` flag. -/
def tryPatterns (st : EState) (line : String) : List IndexPattern → EState × Bool
  | [] => (st, false)
  | pat :: rest =>
    match reMatchGroups pat line with
    | none => tryPatterns st line rest
    | some gs =>
      let st1 := saveCurrent true st
      let entry_num : Option String :=
        match gs.getD 0 none with
        | some s => if s = "" then none else some s
        | none => none
      let title0 : String :=
        match gs.getD 1 none with
        | some s => if s = "" then line else s
        | none => line
      let title1 := if title0 = "" then title0 else halfDedup (pyStrip title0)
      if title1 ≠ "" ∧ 2 < title1.length ∧ title1.length < 300 then
        if pyStrip (pyLower title1) ∈ st1.seen
        then tryPatterns st1 line rest
        else
          let page_ref : Option Nat :=
            match gs.getD 2 none with
            | some s => if s ≠ "" ∧ pyIsDigits s then some (digitsToNat s) else none
            | none => none
          ({ st1 with
              current := some { entry_number := entry_num, title := title1,
                                page_reference := page_ref },
              curIdxs := [] }, true)
      else tryPatterns { st1 with current := none, curIdxs := [] } line rest

/-- The `if not matched` handling of lines 379-412: title-continuation of
the open entry, or the unnumbered-heading fallback. -/
def handleUnmatched (st : EState) (line : String) : EState :=
  match st.current with
  | some cur =>
    if line.length < 150 ∧ cur.title.length + line.length < 300 then
      if pyStrip (pyLower line) = titleKey cur then st
      else
        let newCur : IndexEntry := { cur with title := cur.title ++ " " ++ line }
        { st with current := some newCur, entries := updateAll st.entries st.curIdxs newCur }
    else
      let st1 := saveCurrent false st
      { st1 with current := none, curIdxs := [] }
  | none =>
    if 2 < line.length ∧ line.length < 80 ∧ firstCharUpper line = true ∧
        pyIsUpperStr line = false ∧ reSearchB enumStartRE line = false then
      if (["epilogue", "notes", "suggestions", "about", "appendix", "bibliography",
           "references", "prologue", "preface"].any
            (fun k => leadMatch k.data (pyLower line).data)) ||
         ((pySplitWs line).length ≤ 4 && !(reSearchB unnumStartRE line)) then
        let key := pyStrip (pyLower line)
        if key ∈ st.seen then st
        else { st with
                entries := st.entries ++ [{ entry_number := none, title := line,
                                            page_reference := none }],
                seen := key :: st.seen }
      else st
    else st

/-- One iteration of the `for line in lines` loop. -/
def processLine (cfg : ExtractionConfig) (st : EState) (rawLine : String) : EState :=
  if st.stopped then st
  else
    let line := pyStrip rawLine
    if line = "" then
      match st.current with
      | some _ =>
        let st1 := saveCurrent true st
        { st1 with current := none, curIdxs := [] }
      | none => st
    else if st.collecting = false then
      if anyKeywordB cfg line then { st with collecting := true } else st
    else if isContentLine cfg line st.entries then
      if cfg.min_index_entries ≤ st.entries.length then { st with stopped := true } else st
    else if skipWordHit line ∧ st.current = none then st
    else
      match tryPatterns st line cfg.index_patterns with
      | (st1, true) => st1
      | (st1, false) => handleUnmatched st1 line

/-- `"\n".join(p["text"] for p in index_pages).split(chr(10))`. -/
def combinedLines (ip : List PageDict) : List String :=
  splitLines (joinStr "\n" (ip.map PageDict.text))

/-- The entries accumulated by the line loop, after the final
`if current_entry` commit, before the filter pass. -/
def preFilterEntries (cfg : ExtractionConfig) (ip : List PageDict) : List IndexEntry :=
  (saveCurrent true ((combinedLines ip).foldl (processLine cfg) initState)).entries

/-- The final filter-and-deduplicate pass of lines 420-431. -/
def filterEntries : List IndexEntry → List String → List IndexEntry
  | [], _ => []
  | e :: rest, seen =>
    if titleKey e ≠ "" ∧ titleKey e ∉ seen ∧
        2 < (titleKey e).length ∧ (titleKey e).length < 300 then
      if reSearchB filterTailRE (titleKey e) then filterEntries rest seen
      else e :: filterEntries rest (titleKey e :: seen)
    else filterEntries rest seen

/-- `_extract_entries_adaptive`. -/
def extractEntriesAdaptive (cfg : ExtractionConfig) (ip : List PageDict) : List IndexEntry :=
  filterEntries (preFilterEntries cfg ip) []

/-- `AdaptiveIndexExtractor.extract`. -/
def indexExtract (cfg : ExtractionConfig) (pages : List PageDict)
    (max_pages : Option Nat) : Option IndexResult :=
  match locatedPages cfg pages max_pages with
  | [] => none
  | p :: rest =>
    if (extractEntriesAdaptive cfg (p :: rest)).length < cfg.min_index_entries then none
    else some { page_number := p.page_number,
                pages := (p :: rest).map PageDict.page_number,
                has_index_keyword := true,
                entries := extractEntriesAdaptive cfg (p :: rest),
                raw_text := joinStr "\n" ((p :: rest).map PageDict.text) }

/-! ## AdaptiveTableExtractor

A raw grid is a list of rows of optional cell strings (the shape produced
by the table-detection library).  Python truthiness `if cell` is false for
`None` and for the empty string. -/

def cellStr : Option String → String
  | none => ""
  | some s => s

def cellTruthy : Option String → Bool
  | none => false
  | some s => s ≠ ""

/-- One term of `any(str(cell).strip() for cell in row if cell)` /
`sum(1 for row ... for cell in row if cell and str(cell).strip())`. -/
def cellFilledB (c : Option String) : Bool :=
  cellTruthy c && !((pyStrip (cellStr c)).isEmpty)

/-- `row and any(str(cell).strip() for cell in row if cell)`. -/
def rowNonEmpty (row : List (Option String)) : Bool :=
  !row.isEmpty && row.any cellFilledB

def nonEmptyRows (table : List (List (Option String))) : List (List (Option String)) :=
  table.filter rowNonEmpty

/-- `max(len(row) for row in non_empty_rows if row)`; the fold with base 0
agrees with Python whenever the row list is non-empty (it always is at the
call site, being guarded by `min_table_rows ≥ 1`). -/
def maxColsOf (rows : List (List (Option String))) : Nat :=
  (rows.map List.length).foldr max 0

def totalCellsOf (rows : List (List (Option String))) : Nat :=
  (rows.map List.length).sum

def filledCellsOf (rows : List (List (Option String))) : Nat :=
  (rows.map (fun row => row.countP cellFilledB)).sum

/-- `cell and len(str(cell).strip()) > config.max_cell_length`. -/
def longCellB (cfg : ExtractionConfig) (c : Option String) : Bool :=
  cellTruthy c && decide (cfg.max_cell_length < (pyStrip (cellStr c)).length)

/-- The count of long CELLS across the remaining rows (lines 516-518). -/
def longCellsOf (cfg : ExtractionConfig) (rows : List (List (Option String))) : Nat :=
  (rows.map (fun row => row.countP (longCellB cfg))).sum

/-- `_validate_table`.  `long_cells > len(rows) * 0.5` is the exact
comparison `len(rows) < 2 * long_cells`, and the float fill-ratio test
`filled_cells / total_cells < min_table_cell_fill` becomes the exact
rational comparison via `mkRat`. -/
def validateTable (cfg : ExtractionConfig) (table : List (List (Option String))) : Bool :=
  if table.isEmpty then false
  else if (nonEmptyRows table).length < cfg.min_table_rows then false
  else if maxColsOf (nonEmptyRows table) < cfg.min_table_cols then false
  else if totalCellsOf (nonEmptyRows table) = 0 then false
  else if mkRat (filledCellsOf (nonEmptyRows table)) (totalCellsOf (nonEmptyRows table)) <
      cfg.min_table_cell_fill then false
  else if (nonEmptyRows table).length < 2 * longCellsOf cfg (nonEmptyRows table) then false
  else true

/-- `[str(cell).strip() if cell else "" for cell in row]`. -/
def cleanRow (row : List (Option String)) : List String :=
  row.map (fun c => if cellTruthy c then pyStrip (cellStr c) else "")

/-- The header/data split loop of `_structure_table`: the first cleaned row
with any non-empty cell becomes the header, the rest become data. -/
def splitHeaderData : List (List (Option String)) → Option (List String) →
    List (List String) → Option (List String) × List (List String)
  | [], h, d => (h, d)
  | row :: rest, h, d =>
    let cleaned := cleanRow row
    if cleaned.any (fun s => s ≠ "") then
      match h with
      | none => splitHeaderData rest (some cleaned) d
      | some hh => splitHeaderData rest (some hh) (d ++ [cleaned])
    else splitHeaderData rest h d

/-- Pad with empty strings or truncate a data row to the header width. -/
def normalizeRow (h : Nat) (row : List String) : List String :=
  if row.length < h then row ++ List.replicate (h - row.length) ""
  else if h < row.length then row.take h
  else row

/-- `_structure_table` (core fields; the `dataframe`/`csv` serialisations of
the success branch and the `raw_table` of the exception branch are derived
data carried alongside the same core fields). -/
def structureTable (table : List (List (Option String))) (page_num table_idx : Nat) :
    Option StructuredTable :=
  if (nonEmptyRows table).isEmpty then none
  else
    match splitHeaderData (nonEmptyRows table) none [] with
    | (none, _) => none
    | (some header, data) =>
      if data.isEmpty then none
      else
        some { page_number := page_num, table_index := table_idx, header := header,
               data := data.map (normalizeRow header.length),
               row_count := (data.map (normalizeRow header.length)).length,
               column_count := header.length }

/-- `AdaptiveTableExtractor.extract`, with the page's raw grids supplied as
input (`page.extract_tables()` belongs to the external library boundary).
`table_index` is `idx + 1` over the enumeration of all raw grids. -/
def tableExtractGo (cfg : ExtractionConfig) (page_num : Nat) :
    List (List (List (Option String))) → Nat → List StructuredTable → List StructuredTable
  | [], _, acc => acc
  | t :: rest, idx, acc =>
    if t.isEmpty then tableExtractGo cfg page_num rest (idx + 1) acc
    else if validateTable cfg t then
      match structureTable t page_num (idx + 1) with
      | some st => tableExtractGo cfg page_num rest (idx + 1) (acc ++ [st])
      | none => tableExtractGo cfg page_num rest (idx + 1) acc
    else tableExtractGo cfg page_num rest (idx + 1) acc

def tableExtract (cfg : ExtractionConfig) (tables : List (List (List (Option String))))
    (page_num : Nat) : List StructuredTable :=
  tableExtractGo cfg page_num tables 0 []

/-! ## PDFProcessor.identify_first_page

A document is a list of per-page `extract_text()` results (`none` models
`None`).  `text_length > min * 1.5` is the exact `3*min < 2*len`. -/

def anyIndicatorB (cfg : ExtractionConfig) (t : String) : Bool :=
  cfg.content_indicators.any (fun r => reSearchB r t)

/-- The primary scan (lines 179-205), starting at page `skip_initial_pages + 1`. -/
def primaryScanGo (cfg : ExtractionConfig) : List (Option String) → Nat → Option Nat
  | [], _ => none
  | none :: rest, n => primaryScanGo cfg rest (n + 1)
  | some text :: rest, n =>
    if text = "" then primaryScanGo cfg rest (n + 1)
    else
      let tl := pyStrip (pyLower text)
      if tl.length < cfg.min_content_length then primaryScanGo cfg rest (n + 1)
      else if anyIndicatorB cfg tl then some n
      else if cfg.skip_initial_pages + 2 < n ∧ 3 * cfg.min_content_length < 2 * tl.length
      then some n
      else primaryScanGo cfg rest (n + 1)

def primaryScan (cfg : ExtractionConfig) (pages : List (Option String)) : Option Nat :=
  primaryScanGo cfg (pages.drop cfg.skip_initial_pages) (cfg.skip_initial_pages + 1)

/-- The fallback scan (lines 208-215); note it also starts at
`skip_initial_pages + 1`, not at the first page of the document. -/
def fallbackScanGo (cfg : ExtractionConfig) : List (Option String) → Nat → Option Nat
  | [], _ => none
  | none :: rest, n => fallbackScanGo cfg rest (n + 1)
  | some text :: rest, n =>
    if text ≠ "" ∧ cfg.min_content_length < (pyStrip text).length then some n
    else fallbackScanGo cfg rest (n + 1)

def fallbackScan (cfg : ExtractionConfig) (pages : List (Option String)) : Option Nat :=
  fallbackScanGo cfg (pages.drop cfg.skip_initial_pages) (cfg.skip_initial_pages + 1)

/-- Modelled from the spec claim (C8): the claimed second pass scans "the
first page anywhere in the document whose text is longer than
min_content_length", i.e. the same test starting from page 1. -/
def fallbackScanAnywhere (cfg : ExtractionConfig) (pages : List (Option String)) : Option Nat :=
  fallbackScanGo cfg pages 1

/-- `PDFProcessor.identify_first_page`. -/
def identify_first_page (cfg : ExtractionConfig) (pages : List (Option String)) : Nat :=
  match primaryScan cfg pages with
  | some n => n
  | none =>
    match fallbackScan cfg pages with
    | some n => n
    | none => cfg.skip_initial_pages + 1

/-! ## Concrete inputs used by witnesses and counterexamples -/

/-- The table-of-contents page of spec scenario 3 (claim C7). -/
def c7text : String :=
  "Table of Contents\n1. Introduction ... 5\n2. Methods ... 20\n3. Results ... 45\n"

def c7pages : List PageDict := [{ page_number := 1, text := c7text }]

/-- What `extract` actually returns on `c7pages`: the captured entry
numbers keep the trailing period, because `\d+[\.\)]?` greedily consumes
the punctuation into group 1. -/
def c7result : IndexResult :=
  { page_number := 1, pages := [1], has_index_keyword := true,
    entries := [{ entry_number := some "1.", title := "Introduction", page_reference := some 5 },
                { entry_number := some "2.", title := "Methods", page_reference := some 20 },
                { entry_number := some "3.", title := "Results", page_reference := some 45 }],
    raw_text := c7text }

/-- A page that contains an index keyword but no parseable entries. -/
def contentsOnlyPages : List PageDict := [{ page_number := 1, text := "contents" }]

/-- A page found by the pattern strategy (five enumerated lines) whose lines
match no index keyword. -/
def pages9 : List PageDict :=
  [{ page_number := 1, text := "1. apple\n2. banana\n3. cherry\n4. dog\n5. egg" }]

/-- A 1-header-plus-1-data raw grid (spec scenario 4, claim C5). -/
def grid2 : List (List (Option String)) := [[some "a", some "b"], [some "c", some "d"]]

/-- A raw grid with a single non-empty row. -/
def grid1 : List (List (Option String)) := [[some "a", some "b"]]

/-- Config with a small `max_cell_length`, and a grid in which a single row
(of four) holds three over-long cells (claim C6). -/
def cfg6 : ExtractionConfig := { max_cell_length := 3 }

def grid6 : List (List (Option String)) :=
  [[some "ab", some "cd"], [some "aaaa", some "bbbb", some "cccc"],
   [some "x", some "y"], [some "p", some "q"]]

/-- Modelled from the spec claim (C6): the number of remaining ROWS that
contain at least one over-long cell (the code instead counts the CELLS). -/
def rowsWithLongCell (cfg : ExtractionConfig) (rows : List (List (Option String))) : Nat :=
  (rows.filter (fun row => row.any (longCellB cfg))).length

/-- A grid exercising padding (second row shorter than the header). -/
def grid3 : List (List (Option String)) := [[some "a", some "b"], [some "c"]]

def grid3Table : StructuredTable :=
  { page_number := 7, table_index := 1, header := ["a", "b"], data := [["c", ""]],
    row_count := 1, column_count := 2 }

/-- A document for claim C8: the only substantial page precedes the skip
boundary of the novel configuration. -/
def longT : String := String.mk (List.replicate 120 'a')

def novelCfg : ExtractionConfig := get_config_for_type BookType.novel

def c8pages : List (Option String) := [some longT, some "x", some "x", some "x", some "x"]

/-! ## Helper lemmas -/

theorem normalizeRow_length (h : Nat) (row : List String) :
    (normalizeRow h row).length = h := by
  unfold normalizeRow
  split_ifs with h1 h2
  · simp only [List.length_append, List.length_replicate]
    omega
  · simp only [List.length_take]
    omega
  · omega

theorem filterEntries_sublist : ∀ (l : List IndexEntry) (seen : List String),
    (filterEntries l seen).Sublist l := by
  intro l
  induction l with
  | nil => intro seen; simp [filterEntries]
  | cons e rest ih =>
    intro seen
    unfold filterEntries
    split
    · split
      · exact (ih seen).cons e
      · exact (ih _).cons₂ e
    · exact (ih seen).cons e

theorem filterEntries_mem : ∀ (l : List IndexEntry) (seen : List String) (e : IndexEntry),
    e ∈ filterEntries l seen →
    titleKey e ∉ seen ∧ 2 < (titleKey e).length ∧ (titleKey e).length < 300 := by
  intro l
  induction l with
  | nil => intro seen e he; simp [filterEntries] at he
  | cons a rest ih =>
    intro seen e he
    unfold filterEntries at he
    split at he
    · rename_i hc
      split at he
      · exact ih seen e he
      · rcases List.mem_cons.mp he with h1 | h2
        · subst h1
          exact ⟨hc.2.1, hc.2.2.1, hc.2.2.2⟩
        · have h3 := ih _ e h2
          exact ⟨fun hs => h3.1 (List.mem_cons_of_mem _ hs), h3.2⟩
    · exact ih seen e he

theorem filterEntries_pairwise : ∀ (l : List IndexEntry) (seen : List String),
    (filterEntries l seen).Pairwise (fun a b => titleKey a ≠ titleKey b) := by
  intro l
  induction l with
  | nil => intro seen; simp [filterEntries]
  | cons a rest ih =>
    intro seen
    unfold filterEntries
    split
    · split
      · exact ih seen
      · refine List.Pairwise.cons ?_ (ih _)
        intro b hb hab
        exact (filterEntries_mem _ _ b hb).1 (hab ▸ List.mem_cons_self _ _)
    · exact ih seen

/-- When a line matches no index keyword, the collecting loop leaves the
initial state untouched. -/
theorem processLine_inert (cfg : ExtractionConfig) (l : String)
    (hkw : anyKeywordB cfg (pyStrip l) = false) :
    processLine cfg initState l = initState := by
  unfold processLine initState
  by_cases h : pyStrip l = "" <;> simp [h, hkw]

theorem foldl_processLine_inert (cfg : ExtractionConfig) : ∀ (ls : List String),
    (∀ l ∈ ls, anyKeywordB cfg (pyStrip l) = false) →
    ls.foldl (processLine cfg) initState = initState := by
  intro ls
  induction ls with
  | nil => intro _; rfl
  | cons a t ih =>
    intro h
    rw [List.foldl_cons, processLine_inert cfg a (h a (List.mem_cons_self a t))]
    exact ih (fun l hl => h l (List.mem_cons_of_mem a hl))

theorem fallbackScanGo_ge (cfg : ExtractionConfig) :
    ∀ (l : List (Option String)) (k n : Nat), fallbackScanGo cfg l k = some n → k ≤ n := by
  intro l
  induction l with
  | nil => intro k n h; simp [fallbackScanGo] at h
  | cons a rest ih =>
    intro k n h
    match a with
    | none =>
      have := ih (k + 1) n h
      omega
    | some text =>
      unfold fallbackScanGo at h
      split at h
      · cases h
        exact Nat.le_refl _
      · have := ih (k + 1) n h
        omega

/-! ## Claim theorems -/

/-- C1: `analyze_book_type` follows exactly the decision order
academic_score ≥ 3 → Academic; else novel_score ≥ 2 ∧ total_pages > 100 →
Novel; else manual_score ≥ 2 → Manual; else academic_score ≥ 2 →
Textbook; else Unknown, where each score counts the matching keyword
patterns of its family against the lower-cased join of the samples; and an
empty sample list yields Unknown. -/
theorem analyze_book_type_decision_order :
    (∀ (samples : List String) (total_pages : Nat),
        analyze_book_type samples total_pages =
          (if 3 ≤ academicScore (combinedSample samples) then BookType.academic
           else if 2 ≤ novelScore (combinedSample samples) ∧ 100 < total_pages then
             BookType.novel
           else if 2 ≤ manualScore (combinedSample samples) then BookType.manual
           else if 2 ≤ academicScore (combinedSample samples) then BookType.textbook
           else BookType.unknown)) ∧
    (∀ total_pages : Nat, analyze_book_type [] total_pages = BookType.unknown) := by
  constructor
  · intro samples total_pages
    rfl
  · intro total_pages
    have ha : academicScore (combinedSample []) = 0 := by decide
    have hn : novelScore (combinedSample []) = 0 := by decide
    have hm : manualScore (combinedSample []) = 0 := by decide
    simp [analyze_book_type, ha, hn, hm]

/-- C10: `analyze_book_type` is a pure function of its two arguments: equal
samples and equal page counts give the identical `BookType`. -/
theorem analyze_book_type_deterministic :
    ∀ (s1 s2 : List String) (p1 p2 : Nat), s1 = s2 → p1 = p2 →
    analyze_book_type s1 p1 = analyze_book_type s2 p2 := by
  intro s1 s2 p1 p2 h1 h2
  rw [h1, h2]

theorem analyze_book_type_deterministic_witness :
    (["abstract"] : List String) = ["abstract"] ∧ (50 : Nat) = 50 ∧
    analyze_book_type ["abstract"] 50 = analyze_book_type ["abstract"] 50 :=
  ⟨rfl, rfl, analyze_book_type_deterministic ["abstract"] ["abstract"] 50 50 rfl rfl⟩

/-- C2: if the accepted entry count after parsing and filtering is below
`min_index_entries`, `extract` returns none; a some result carries at
least the minimum number of entries. -/
theorem indexExtract_min_entries_gate :
    ∀ (cfg : ExtractionConfig) (pages : List PageDict) (mp : Option Nat),
    ((extractEntriesAdaptive cfg (locatedPages cfg pages mp)).length <
        cfg.min_index_entries →
      indexExtract cfg pages mp = none) ∧
    (∀ r : IndexResult, indexExtract cfg pages mp = some r →
      cfg.min_index_entries ≤ r.entries.length) := by
  intro cfg pages mp
  constructor
  · intro h
    unfold indexExtract
    split
    · rfl
    · rename_i p rest heq
      rw [heq] at h
      rw [if_pos h]
  · intro r hr
    unfold indexExtract at hr
    split at hr
    · exact absurd hr (by simp)
    · rename_i p rest heq
      split at hr
      · exact absurd hr (by simp)
      · rename_i hlen
        have h2 := Option.some.inj hr
        subst h2
        exact Nat.le_of_not_lt hlen

theorem indexExtract_min_entries_gate_witness :
    ((extractEntriesAdaptive defaultConfig
        (locatedPages defaultConfig contentsOnlyPages none)).length <
        defaultConfig.min_index_entries ∧
      indexExtract defaultConfig contentsOnlyPages none = none) ∧
    (indexExtract defaultConfig c7pages none = some c7result ∧
      defaultConfig.min_index_entries ≤ c7result.entries.length) :=
  ⟨⟨by decide,
    (indexExtract_min_entries_gate defaultConfig contentsOnlyPages none).1 (by decide)⟩,
   ⟨by decide,
    (indexExtract_min_entries_gate defaultConfig c7pages none).2 c7result (by decide)⟩⟩

/-- C4: in any some result of `extract`, no two entries share a
lower-cased trimmed title, every such key has length strictly between 2
and 300, and the entry list is an order-preserving sublist of the entries
collected by the scan (first-seen order). -/
theorem indexExtract_entries_dedup_bounds_order :
    ∀ (cfg : ExtractionConfig) (pages : List PageDict) (mp : Option Nat) (r : IndexResult),
    indexExtract cfg pages mp = some r →
    r.entries.Pairwise (fun a b => titleKey a ≠ titleKey b) ∧
    (∀ e ∈ r.entries, 2 < (titleKey e).length ∧ (titleKey e).length < 300) ∧
    r.entries.Sublist (preFilterEntries cfg (locatedPages cfg pages mp)) := by
  intro cfg pages mp r hr
  unfold indexExtract at hr
  split at hr
  · exact absurd hr (by simp)
  · rename_i p rest heq
    split at hr
    · exact absurd hr (by simp)
    · have h2 := Option.some.inj hr
      subst h2
      rw [heq]
      refine ⟨filterEntries_pairwise _ _, fun e he => (filterEntries_mem _ _ e he).2, ?_⟩
      exact filterEntries_sublist _ _

theorem indexExtract_entries_dedup_bounds_order_witness :
    indexExtract defaultConfig c7pages none = some c7result ∧
    c7result.entries.Pairwise (fun a b => titleKey a ≠ titleKey b) :=
  ⟨by decide,
   (indexExtract_entries_dedup_bounds_order defaultConfig c7pages none c7result
      (by decide)).1⟩

/-- C3: whenever `_structure_table` accepts a grid, every data row of the
result has exactly the header's length (shorter rows padded, longer rows
truncated), `column_count` is the header length and `row_count` is the
number of data rows. -/
theorem structureTable_row_width_invariant :
    ∀ (table : List (List (Option String))) (pn ti : Nat) (st : StructuredTable),
    structureTable table pn ti = some st →
    (∀ row ∈ st.data, row.length = st.header.length) ∧
    st.column_count = st.header.length ∧ st.row_count = st.data.length := by
  intro table pn ti st h
  unfold structureTable at h
  split at h
  · exact absurd h (by simp)
  · split at h
    · exact absurd h (by simp)
    · rename_i header data hsplit
      split at h
      · exact absurd h (by simp)
      · have h2 := Option.some.inj h
        subst h2
        refine ⟨?_, rfl, rfl⟩
        intro row hrow
        obtain ⟨r0, _, hr0⟩ := List.mem_map.mp hrow
        subst hr0
        exact normalizeRow_length _ _

theorem structureTable_row_width_invariant_witness :
    structureTable grid3 7 1 = some grid3Table ∧
    ∀ row ∈ grid3Table.data, row.length = grid3Table.header.length :=
  ⟨by decide, (structureTable_row_width_invariant grid3 7 1 grid3Table (by decide)).1⟩

/-- C5 counterexample: the 1-header-plus-1-data grid of spec scenario 4 has
TWO non-empty rows, which is not below `min_table_rows = 2`; under the
default configuration validation accepts it and the extractor returns one
table, not the empty sequence. -/
theorem tableExtract_two_row_grid_accepted :
    validateTable defaultConfig grid2 = true ∧
    tableExtract defaultConfig [grid2] 1 ≠ [] := by
  constructor
  · decide
  · decide

/-- C5 amended: validation rejects a grid for the row minimum exactly when
its non-empty row count is strictly below `min_table_rows`; a single-row
grid is therefore rejected (empty output), while the 1-header-plus-1-data
grid meets the default minimum of 2 and yields one `StructuredTable`. -/
theorem tableExtract_row_minimum_behavior :
    (∀ (cfg : ExtractionConfig) (g : List (List (Option String))),
        (nonEmptyRows g).length < cfg.min_table_rows → validateTable cfg g = false) ∧
    tableExtract defaultConfig [grid1] 1 = [] ∧
    tableExtract defaultConfig [grid2] 1 =
      [{ page_number := 1, table_index := 1, header := ["a", "b"], data := [["c", "d"]],
         row_count := 1, column_count := 2 }] := by
  refine ⟨?_, by decide, by decide⟩
  intro cfg g h
  unfold validateTable
  split_ifs <;> rfl

theorem tableExtract_row_minimum_behavior_witness :
    ((nonEmptyRows grid1).length < ({ min_table_rows := 5 } : ExtractionConfig).min_table_rows) ∧
    validateTable { min_table_rows := 5 } grid1 = false :=
  ⟨by decide, tableExtract_row_minimum_behavior.1 { min_table_rows := 5 } grid1 (by decide)⟩

/-- C6 counterexample: `grid6` passes the row, column and fill checks and at
most half of its rows contain an over-long cell, yet validation rejects it,
because the code counts long CELLS (three, in one row) against half the row
count, not long ROWS. -/
theorem validateTable_long_cell_count_counterexample :
    ¬((nonEmptyRows grid6).length < cfg6.min_table_rows) ∧
    ¬(maxColsOf (nonEmptyRows grid6) < cfg6.min_table_cols) ∧
    totalCellsOf (nonEmptyRows grid6) ≠ 0 ∧
    ¬(mkRat (filledCellsOf (nonEmptyRows grid6)) (totalCellsOf (nonEmptyRows grid6)) <
        cfg6.min_table_cell_fill) ∧
    ¬((nonEmptyRows grid6).length < 2 * rowsWithLongCell cfg6 (nonEmptyRows grid6)) ∧
    validateTable cfg6 grid6 = false := by
  refine ⟨by decide, by decide, by decide, by decide, by decide, by decide⟩

/-- C6 amended: after the empty-row drop and the row, column and fill-ratio
checks, validation rejects exactly when the number of over-long CELLS
(stripped length above `max_cell_length`, truthy cells only) across the
remaining rows exceeds half the number of remaining rows. -/
theorem validateTable_long_cell_criterion :
    ∀ (cfg : ExtractionConfig) (table : List (List (Option String))),
    table.isEmpty = false →
    ¬((nonEmptyRows table).length < cfg.min_table_rows) →
    ¬(maxColsOf (nonEmptyRows table) < cfg.min_table_cols) →
    totalCellsOf (nonEmptyRows table) ≠ 0 →
    ¬(mkRat (filledCellsOf (nonEmptyRows table)) (totalCellsOf (nonEmptyRows table)) <
        cfg.min_table_cell_fill) →
    (validateTable cfg table = false ↔
      (nonEmptyRows table).length < 2 * longCellsOf cfg (nonEmptyRows table)) := by
  intro cfg table h0 h1 h2 h3 h4
  unfold validateTable
  rw [if_neg (by simp [h0]), if_neg h1, if_neg h2, if_neg h3, if_neg h4]
  split_ifs with h5 <;> simp [h5]

theorem validateTable_long_cell_criterion_witness :
    grid6.isEmpty = false ∧
    (validateTable cfg6 grid6 = false ↔
      (nonEmptyRows grid6).length < 2 * longCellsOf cfg6 (nonEmptyRows grid6)) :=
  ⟨by decide,
   validateTable_long_cell_criterion cfg6 grid6 (by decide) (by decide) (by decide)
     (by decide) (by decide)⟩

/-- C7 counterexample: on the scenario-3 page the extractor does NOT return
the claimed entry numbers "1", "2", "3": the enumerator pattern
`\d+[\.\)]?` greedily captures the trailing period. -/
theorem indexExtract_toc_scenario_counterexample :
    (indexExtract defaultConfig c7pages none).map IndexResult.entries ≠
      some [{ entry_number := some "1", title := "Introduction", page_reference := some 5 },
            { entry_number := some "2", title := "Methods", page_reference := some 20 },
            { entry_number := some "3", title := "Results", page_reference := some 45 }] := by
  decide

/-- C7 amended: on the scenario-3 page the extractor yields exactly three
entries, in order ("1.", "Introduction", 5), ("2.", "Methods", 20),
("3.", "Results", 45) — the claimed titles and page references, with the
entry numbers carrying the trailing period. -/
theorem indexExtract_toc_scenario_actual :
    indexExtract defaultConfig c7pages none = some c7result := by
  decide

/-- C8 counterexample: with the novel configuration (skip_initial_pages = 3,
min_content_length = 100) and a document whose only substantial page is
page 1, the primary scan finds nothing; the claimed second pass over the
whole document would return page 1, but `identify_first_page` returns 4,
because the fallback loop also starts after the skip boundary. -/
theorem identify_first_page_second_pass_counterexample :
    primaryScan novelCfg c8pages = none ∧
    fallbackScanAnywhere novelCfg c8pages = some 1 ∧
    identify_first_page novelCfg c8pages = 4 := by
  refine ⟨by decide, by decide, by decide⟩

/-- C8 amended: when the primary scan finds nothing, `identify_first_page`
returns the first page AT OR AFTER the skip boundary whose stripped text is
longer than `min_content_length` (the fallback scan), defaulting to page
`skip_initial_pages + 1` when that also fails; every page the fallback can
return lies after the skip boundary, and the operation always returns a
page number by construction. -/
theorem identify_first_page_fallback_behavior :
    ∀ (cfg : ExtractionConfig) (pages : List (Option String)),
    primaryScan cfg pages = none →
    identify_first_page cfg pages =
      (fallbackScan cfg pages).getD (cfg.skip_initial_pages + 1) ∧
    (∀ n, fallbackScan cfg pages = some n → cfg.skip_initial_pages + 1 ≤ n) := by
  intro cfg pages hp
  constructor
  · unfold identify_first_page
    rw [hp]
    cases hf : fallbackScan cfg pages <;> simp [hf]
  · intro n hf
    exact fallbackScanGo_ge cfg _ _ _ hf

theorem identify_first_page_fallback_behavior_witness :
    primaryScan novelCfg c8pages = none ∧
    identify_first_page novelCfg c8pages =
      (fallbackScan novelCfg c8pages).getD (novelCfg.skip_initial_pages + 1) :=
  ⟨by decide, (identify_first_page_fallback_behavior novelCfg c8pages (by decide)).1⟩

/-- C9: if no (stripped) line of the located index pages matches any
configured index keyword, entry collection never starts and `extract`
returns none (for any configuration requiring at least one entry, which
all shipped configurations do); in particular pages located by the
pattern or statistical strategy yield a result only when a keyword line
is present. -/
theorem indexExtract_no_keyword_line_none :
    ∀ (cfg : ExtractionConfig) (pages : List PageDict) (mp : Option Nat),
    0 < cfg.min_index_entries →
    (∀ l ∈ combinedLines (locatedPages cfg pages mp),
        anyKeywordB cfg (pyStrip l) = false) →
    indexExtract cfg pages mp = none := by
  intro cfg pages mp hmin hkw
  unfold indexExtract
  split
  · rfl
  · rename_i p rest heq
    have hfold : (combinedLines (p :: rest)).foldl (processLine cfg) initState = initState := by
      apply foldl_processLine_inert
      intro l hl
      exact hkw l (by rw [heq]; exact hl)
    have hent : extractEntriesAdaptive cfg (p :: rest) = [] := by
      unfold extractEntriesAdaptive preFilterEntries
      rw [hfold]
      rfl
    rw [if_pos (by rw [hent]; simpa using hmin)]

theorem indexExtract_no_keyword_line_none_witness :
    0 < defaultConfig.min_index_entries ∧
    (∀ l ∈ combinedLines (locatedPages defaultConfig pages9 none),
        anyKeywordB defaultConfig (pyStrip l) = false) ∧
    indexExtract defaultConfig pages9 none = none :=
  ⟨by decide, by decide,
   indexExtract_no_keyword_line_none defaultConfig pages9 none (by decide) (by decide)⟩
